import Mathlib

/-!
Shallow embedding of the room-session controller
(`src/src/lib/CoveyTownController.ts`, class `CoveyTownController`).

Coordinates are modelled as rationals (the source uses JS numbers and divides
widths/heights by 2).  Listeners are opaque identities (`Nat`); every
`listeners.forEach(l => l.onX(...))` in the source is modelled as appending
`listeners.map (fun l => TownEvent.x l ...)` to the operation's event trace.
Fallible provisioning (`await this._videoClient.getTokenForTown(...)`) is
modelled by passing the provisioning outcome as an `Option String` argument.
-/

/-- `UserLocation` from `src/CoveyTypes` (shape per spec §3: position,
facing direction, optional active-conversation label). -/
structure UserLocation where
  x : ℚ
  y : ℚ
  direction : String
  moving : Bool
  conversationLabel : Option String
deriving DecidableEq

/-- `BoundingBox` from `TownsServiceClient`: center point plus full
width/height. -/
structure BoundingBox where
  x : ℚ
  y : ℚ
  width : ℚ
  height : ℚ
deriving DecidableEq

/-- `ServerConversationArea` from `TownsServiceClient`. -/
structure ServerConversationArea where
  label : String
  topic : String
  occupantsByID : List String
  boundingBox : BoundingBox
deriving DecidableEq

/-- `Player` from `src/types/Player` (shape per spec §3).  The
active-conversation-area reference set by `setActiveConversationArea` is
modelled by the area's label, which is its unique identity (spec §3). -/
structure Player where
  id : String
  location : UserLocation
  activeConversationArea : Option String
deriving DecidableEq

/-- `PlayerSession` from `src/types/PlayerSession` (shape per spec §3):
a participant paired with an opaque session token and the video token
obtained at creation time. -/
structure PlayerSession where
  player : Player
  sessionToken : String
  videoToken : Option String
deriving DecidableEq

/-- The mutable state of one `CoveyTownController` instance (its private
fields).  Listeners are opaque identities. -/
structure CoveyTownController where
  coveyTownID : String
  friendlyName : String
  townUpdatePassword : String
  isPubliclyListed : Bool
  capacity : Nat
  players : List Player
  sessions : List PlayerSession
  listeners : List Nat
  conversationAreas : List ServerConversationArea
deriving DecidableEq

/-- One listener notification, as dispatched by the
`this._listeners.forEach(listener => listener.onX(...))` calls. -/
inductive TownEvent where
  | playerJoined (listener : Nat) (playerID : String)
  | playerMoved (listener : Nat) (playerID : String)
  | playerDisconnected (listener : Nat) (playerID : String)
  | conversationAreaUpdated (listener : Nat) (label : String)
  | conversationAreaDestroyed (listener : Nat) (label : String)
  | townDestroyed (listener : Nat)
deriving DecidableEq

/-- The controller constructor (`constructor(friendlyName, isPubliclyListed)`):
capacity is fixed at 50, all collections start empty.  The nanoid-generated
town id and update password are taken as parameters (opaque randomness). -/
def mkCoveyTownController (friendlyName : String) (isPubliclyListed : Bool)
    (townID password : String) : CoveyTownController :=
  { coveyTownID := townID
    friendlyName := friendlyName
    townUpdatePassword := password
    isPubliclyListed := isPubliclyListed
    capacity := 50
    players := []
    sessions := []
    listeners := []
    conversationAreas := [] }

/-- `occupancy` getter: returns `this._listeners.length`. -/
def occupancy (s : CoveyTownController) : Nat :=
  s.listeners.length

/-- `getConversationAreaCoordinates(boudingBox)`: the eight derived
coordinates `[xBotLeft, yBotLeft, xTopRight, yTopRight, xTopLeft, yTopLeft,
xBotRight, yBotRight]`. -/
def getConversationAreaCoordinates (boudingBox : BoundingBox) : List ℚ :=
  let heightDiff := boudingBox.height / 2
  let widthDiff := boudingBox.width / 2
  let xBotLeft := boudingBox.x - widthDiff
  let yBotLeft := boudingBox.y - heightDiff
  let xTopRight := boudingBox.x + widthDiff
  let yTopRight := boudingBox.y + heightDiff
  let xTopLeft := boudingBox.x - widthDiff
  let yTopLeft := boudingBox.y + heightDiff
  let xBotRight := boudingBox.x + widthDiff
  let yBotRight := boudingBox.y - heightDiff
  [xBotLeft, yBotLeft, xTopRight, yTopRight, xTopLeft, yTopLeft, xBotRight, yBotRight]

/-- The pairwise rectangle test inside the `conversationOverlaps` loop:
`!(main[0] >= new[2] || main[2] <= new[0] || main[3] <= new[1] ||
main[1] >= new[3])`. -/
def rectanglesOverlap (mainCoordinates newCoordinates : List ℚ) : Bool :=
  !(mainCoordinates.getD 0 0 ≥ newCoordinates.getD 2 0 ||
    mainCoordinates.getD 2 0 ≤ newCoordinates.getD 0 0 ||
    mainCoordinates.getD 3 0 ≤ newCoordinates.getD 1 0 ||
    mainCoordinates.getD 1 0 ≥ newCoordinates.getD 3 0)

/-- `conversationOverlaps(mainCoordinates)`: scans `this._conversationAreas`
(breaking at the first overlap) and reports whether any existing area's
derived coordinates overlap the candidate's. -/
def conversationOverlaps (s : CoveyTownController) (mainCoordinates : List ℚ) : Bool :=
  s.conversationAreas.any fun area =>
    rectanglesOverlap mainCoordinates (getConversationAreaCoordinates area.boundingBox)

/-- The pairwise overlap test applied to two bounding boxes, each run through
`getConversationAreaCoordinates` exactly as `addConversationArea` does for the
candidate and `conversationOverlaps` does for each existing area. -/
def pairOverlaps (a b : BoundingBox) : Bool :=
  rectanglesOverlap (getConversationAreaCoordinates a) (getConversationAreaCoordinates b)

/-- `isPlayerInConversationArea(player, conversationAreaCoordinates)`:
strict containment against coordinates 4/6 (topLeft.x/botRight.x) and
5/7 (topLeft.y/botRight.y). -/
def isPlayerInConversationArea (player : Player)
    (conversationAreaCoordinates : List ℚ) : Bool :=
  player.location.x > conversationAreaCoordinates.getD 4 0 &&
  player.location.x < conversationAreaCoordinates.getD 6 0 &&
  player.location.y < conversationAreaCoordinates.getD 5 0 &&
  player.location.y > conversationAreaCoordinates.getD 7 0

/-- JS `Array.prototype.indexOf`: index of the first occurrence, or `-1`
when absent. -/
def jsIndexOf (l : List String) (x : String) : Int :=
  match List.indexOf? x l with
  | some i => (i : Int)
  | none => -1

/-- JS `Array.prototype.splice(start, 1)` restricted to its effect on the
array: removes one element at `start`, where a negative `start` counts from
the end of the array (clamped at 0) and a `start` at or beyond the length
removes nothing. -/
def spliceRemoveOne (l : List String) (start : Int) : List String :=
  let actualStart : Nat :=
    if start < 0 then (max ((l.length : Int) + start) 0).toNat
    else min start.toNat l.length
  l.take actualStart ++ l.drop (actualStart + 1)

/-- `addPlayer(newPlayer)`.  The source pushes the fresh session and the
player onto `_sessions`/`_players` and only then awaits
`videoClient.getTokenForTown`; the provisioning outcome is the `provisioned`
argument.  When it is `none` the awaited call rejects: the exception
propagates (no session is returned, no join notification fires) but the two
pushes have already happened.  When it is `some token`, the token is written
into the pushed session object and every listener is notified of the join. -/
def addPlayer (s : CoveyTownController) (newPlayer : Player)
    (sessionToken : String) (provisioned : Option String) :
    CoveyTownController × List TownEvent × Option PlayerSession :=
  let theSession : PlayerSession :=
    { player := newPlayer, sessionToken := sessionToken, videoToken := none }
  match provisioned with
  | none =>
      ({ s with sessions := s.sessions ++ [theSession],
                players := s.players ++ [newPlayer] },
        [], none)
  | some token =>
      let theSession := { theSession with videoToken := some token }
      ({ s with sessions := s.sessions ++ [theSession],
                players := s.players ++ [newPlayer] },
        s.listeners.map (fun l => TownEvent.playerJoined l newPlayer.id),
        some theSession)

/-- The body of the `forEach` loop in `destroySession`: at an area whose
label equals the player's recorded conversation label, splice
`indexOf(player.id)` out of the occupant list and notify listeners of the
update; if the occupant list is now empty, the source evaluates
`this._conversationAreas.slice(convoIndex, 1)` — which returns a copy and
removes nothing, so the emptied area stays in the list — and notifies
listeners of the area's destruction.  The threaded pair is (areas so far,
events so far). -/
def destroyAreaStep (s : CoveyTownController) (session : PlayerSession)
    (acc : List ServerConversationArea × List TownEvent)
    (area : ServerConversationArea) :
    List ServerConversationArea × List TownEvent :=
  if some area.label = session.player.location.conversationLabel then
    let index := jsIndexOf area.occupantsByID session.player.id
    let area := { area with
      occupantsByID := spliceRemoveOne area.occupantsByID index }
    let events := acc.2 ++
      s.listeners.map (fun l => TownEvent.conversationAreaUpdated l area.label)
    let events :=
      if area.occupantsByID.length = 0 then
        events ++
          s.listeners.map (fun l => TownEvent.conversationAreaDestroyed l area.label)
      else events
    (acc.1 ++ [area], events)
  else (acc.1 ++ [area], acc.2)

/-- `destroySession(session)`: filters the player and session out of
`_players`/`_sessions`, then walks `_conversationAreas` with
`destroyAreaStep`.  Finally every listener is notified of the
disconnection. -/
def destroySession (s : CoveyTownController) (session : PlayerSession) :
    CoveyTownController × List TownEvent :=
  let players := s.players.filter fun p => p.id ≠ session.player.id
  let sessions := s.sessions.filter fun t => t.sessionToken ≠ session.sessionToken
  let pass := s.conversationAreas.foldl (destroyAreaStep s session) ([], [])
  ({ s with players := players, sessions := sessions, conversationAreas := pass.1 },
    pass.2 ++ s.listeners.map (fun l => TownEvent.playerDisconnected l session.player.id))

/-- The body of the first `forEach` loop in `updatePlayerLocation`: at an
area whose label equals the player's OLD conversation label, splice
`indexOf(player.id)` out of the occupant list, clear the active-area
reference, and notify every listener of the area update.  The threaded
triple is (areas so far, events so far, active-area reference). -/
def oldAreaStep (s : CoveyTownController) (player : Player)
    (acc : List ServerConversationArea × List TownEvent × Option String)
    (area : ServerConversationArea) :
    List ServerConversationArea × List TownEvent × Option String :=
  if some area.label = player.location.conversationLabel then
    let index := jsIndexOf area.occupantsByID player.id
    let area := { area with
      occupantsByID := spliceRemoveOne area.occupantsByID index }
    (acc.1 ++ [area],
      acc.2.1 ++
        s.listeners.map (fun l => TownEvent.conversationAreaUpdated l area.label),
      none)
  else (acc.1 ++ [area], acc.2.1, acc.2.2)

/-- The body of the second `forEach` loop in `updatePlayerLocation`: at an
area whose label equals the NEW conversation label, push the player's id
onto the occupant list, set the active-area reference, and notify every
listener of the area update. -/
def newAreaStep (s : CoveyTownController) (player : Player)
    (location : UserLocation)
    (acc : List ServerConversationArea × List TownEvent × Option String)
    (area : ServerConversationArea) :
    List ServerConversationArea × List TownEvent × Option String :=
  if some area.label = location.conversationLabel then
    let area := { area with
      occupantsByID := area.occupantsByID ++ [player.id] }
    (acc.1 ++ [area],
      acc.2.1 ++
        s.listeners.map (fun l => TownEvent.conversationAreaUpdated l area.label),
      some area.label)
  else (acc.1 ++ [area], acc.2.1, acc.2.2)

/-- `updatePlayerLocation(player, location)`.  When the conversation label
changes, a first pass over `_conversationAreas` removes the player's id
(via `indexOf` + `splice`) from every area matching the OLD label, clearing
the player's active-area reference and notifying listeners of each such
update; a second pass pushes the id onto every area matching the NEW label,
setting the active-area reference and notifying listeners.  In every case
the player's location is then updated and listeners are notified of the
move. -/
def updatePlayerLocation (s : CoveyTownController) (player : Player)
    (location : UserLocation) : CoveyTownController × List TownEvent :=
  let passes :=
    if player.location.conversationLabel ≠ location.conversationLabel then
      let oldPass := s.conversationAreas.foldl (oldAreaStep s player)
        ([], [], player.activeConversationArea)
      oldPass.1.foldl (newAreaStep s player location)
        ([], oldPass.2.1, oldPass.2.2)
    else (s.conversationAreas, [], player.activeConversationArea)
  let player := { player with location := location,
                              activeConversationArea := passes.2.2 }
  let players := s.players.map fun q => if q.id = player.id then player else q
  ({ s with players := players, conversationAreas := passes.1 },
    passes.2.1 ++ s.listeners.map (fun l => TownEvent.playerMoved l player.id))

/-- `addConversationArea(_conversationArea)`: rejects an empty topic, then a
duplicate label, then an overlapping bounding box, each with `false` and no
mutation.  On acceptance it pushes the id of every player strictly inside
the candidate's region onto the candidate's occupant list (appending to
whatever occupants were passed in, which the source never clears), sets each
such player's active-area reference, notifies every listener of the area
update, pushes the area onto `_conversationAreas` and returns `true`. -/
def addConversationArea (s : CoveyTownController)
    (conversationArea : ServerConversationArea) :
    Bool × CoveyTownController × List TownEvent :=
  if conversationArea.topic = "" then (false, s, [])
  else if s.conversationAreas.any (fun a => a.label = conversationArea.label) then
    (false, s, [])
  else
    let conversationAreaCoordinates :=
      getConversationAreaCoordinates conversationArea.boundingBox
    if conversationOverlaps s conversationAreaCoordinates then (false, s, [])
    else
      let conversationArea :=
        { conversationArea with
            occupantsByID := conversationArea.occupantsByID ++
              ((s.players.filter fun p =>
                  isPlayerInConversationArea p conversationAreaCoordinates).map
                fun p => p.id) }
      let players := s.players.map fun p =>
        if isPlayerInConversationArea p conversationAreaCoordinates then
          { p with activeConversationArea := some conversationArea.label }
        else p
      (true,
        { s with players := players,
                 conversationAreas := s.conversationAreas ++ [conversationArea] },
        s.listeners.map fun l => TownEvent.conversationAreaUpdated l conversationArea.label)

/-- `addTownListener(listener)`: pushes onto `_listeners`. -/
def addTownListener (s : CoveyTownController) (listener : Nat) : CoveyTownController :=
  { s with listeners := s.listeners ++ [listener] }

/-- `removeTownListener(listener)`: filters the listener out of `_listeners`. -/
def removeTownListener (s : CoveyTownController) (listener : Nat) : CoveyTownController :=
  { s with listeners := s.listeners.filter fun v => v ≠ listener }

/-- `getSessionByToken(token)`: exact-match lookup in `_sessions`. -/
def getSessionByToken (s : CoveyTownController) (token : String) : Option PlayerSession :=
  s.sessions.find? fun p => p.sessionToken = token

/-- `disconnectAllPlayers()`: notifies every listener of the town's
destruction (no state change). -/
def disconnectAllPlayers (s : CoveyTownController) : List TownEvent :=
  s.listeners.map fun l => TownEvent.townDestroyed l

/-! ## Helper lemmas -/

/-- If `x` does not occur in `l`, JS `indexOf` returns `-1`. -/
theorem jsIndexOf_of_not_mem (l : List String) (x : String) (h : x ∉ l) :
    jsIndexOf l x = -1 := by
  have hidx : List.indexOf? x l = none := by
    rw [List.indexOf?_eq_none_iff]
    intro y hy
    simp only [beq_iff_eq]
    rintro rfl
    exact h hy
  simp [jsIndexOf, hidx]

/-- `splice(-1, 1)` on a nonempty array removes its LAST element. -/
theorem spliceRemoveOne_neg_one (l : List String) (h : l ≠ []) :
    spliceRemoveOne l (-1) = l.dropLast := by
  have hlen : 1 ≤ l.length := List.length_pos.mpr h
  have h0 : (0 : Int) ≤ (l.length : Int) + -1 := by omega
  simp only [spliceRemoveOne]
  rw [if_pos (by norm_num : (-1 : Int) < 0), max_eq_left h0,
    (by omega : ((l.length : Int) + -1).toNat = l.length - 1),
    Nat.sub_add_cancel hlen, List.drop_length l, List.append_nil,
    ← List.dropLast_eq_take]

/-! ## Theorems for the claims -/

/-- C6: the pairwise overlap test used by `conversationOverlaps` is
symmetric: running it with `a` as the candidate and `b` as the existing
area gives the same boolean as the other way round. -/
theorem rectanglesOverlap_symm (a b : BoundingBox) :
    pairOverlaps a b = pairOverlaps b a := by
  simp only [pairOverlaps, rectanglesOverlap, getConversationAreaCoordinates,
    List.getD_cons_zero, List.getD_cons_succ]
  refine congrArg Bool.not ?_
  rw [Bool.eq_iff_iff]
  simp only [Bool.or_eq_true, decide_eq_true_eq, ge_iff_le]
  constructor <;> intro h <;> tauto

/-- C5: two rectangles that meet exactly at a boundary edge (an xMax of one
equal to the xMin of the other, or a yMax equal to a yMin) are reported as
non-overlapping by the pairwise test of `conversationOverlaps`: equality at
an edge counts as non-overlapping. -/
theorem rectanglesOverlap_touching_edges (a b : BoundingBox)
    (h : a.x + a.width / 2 = b.x - b.width / 2 ∨
         b.x + b.width / 2 = a.x - a.width / 2 ∨
         a.y + a.height / 2 = b.y - b.height / 2 ∨
         b.y + b.height / 2 = a.y - a.height / 2) :
    pairOverlaps a b = false := by
  simp only [pairOverlaps, rectanglesOverlap, getConversationAreaCoordinates,
    List.getD_cons_zero, List.getD_cons_succ, Bool.not_eq_false',
    Bool.or_eq_true, decide_eq_true_eq, ge_iff_le]
  rcases h with h | h | h | h <;> exact le_of_eq h |> fun h' => by tauto

/-- Witness for C5 at the spec's fixture: `a` spans x ∈ [0,10] and `b`
spans x ∈ [10,20] with the same y-range. -/
theorem rectanglesOverlap_touching_edges_witness :
    pairOverlaps ⟨5, 0, 10, 10⟩ ⟨15, 0, 10, 10⟩ = false :=
  rectanglesOverlap_touching_edges ⟨5, 0, 10, 10⟩ ⟨15, 0, 10, 10⟩
    (Or.inl (by norm_num))

/-- C9: the `occupancy` accessor returns the number of registered
listeners, not participants: it is the listener-list length, is unchanged
by `addPlayer` and `destroySession`, and is incremented by
`addTownListener`. -/
theorem occupancy_is_listener_count (s : CoveyTownController) (p : Player)
    (tok : String) (provisioned : Option String) (session : PlayerSession)
    (listener : Nat) :
    occupancy s = s.listeners.length ∧
    occupancy (addPlayer s p tok provisioned).1 = occupancy s ∧
    occupancy (destroySession s session).1 = occupancy s ∧
    occupancy (addTownListener s listener) = occupancy s + 1 := by
  refine ⟨rfl, ?_, rfl, ?_⟩
  · cases provisioned <;> rfl
  · simp [occupancy, addTownListener]

/-- C10: `addPlayer` with successful provisioning always appends the
participant, with no capacity check; once the list already holds
`capacity` participants, one more call pushes it past capacity. -/
theorem addPlayer_never_checks_capacity (s : CoveyTownController) (p : Player)
    (tok vid : String) :
    (addPlayer s p tok (some vid)).1.players = s.players ++ [p] ∧
    (s.capacity ≤ s.players.length →
      s.capacity < (addPlayer s p tok (some vid)).1.players.length) := by
  refine ⟨rfl, fun h => ?_⟩
  have hl : (addPlayer s p tok (some vid)).1.players.length = s.players.length + 1 := by
    simp [addPlayer]
  omega

/-- A town already holding its 50-player capacity (as fixed by the
constructor). -/
def fullTown : CoveyTownController :=
  { mkCoveyTownController "t" true "TOWN1234" "pw" with
      players := List.replicate 50 ⟨"p", ⟨0, 0, "front", false, none⟩, none⟩ }

/-- Witness for C10: a 51st player is admitted into a town already at its
capacity of 50. -/
theorem addPlayer_never_checks_capacity_witness :
    (addPlayer fullTown ⟨"q", ⟨0, 0, "front", false, none⟩, none⟩ "tok"
        (some "vid")).1.players =
      fullTown.players ++ [⟨"q", ⟨0, 0, "front", false, none⟩, none⟩] ∧
    fullTown.capacity < (addPlayer fullTown ⟨"q", ⟨0, 0, "front", false, none⟩, none⟩
      "tok" (some "vid")).1.players.length := by
  refine ⟨(addPlayer_never_checks_capacity fullTown _ "tok" "vid").1,
    (addPlayer_never_checks_capacity fullTown _ "tok" "vid").2 ?_⟩
  simp [fullTown, mkCoveyTownController]

/-- C4: if the candidate's topic is empty, or an existing area carries the
same label, or the candidate's bounds overlap an existing area's bounds,
then `addConversationArea` returns `false` with the room state completely
unchanged and no listener notification; the three validations precede any
participant scan or mutation. -/
theorem addConversationArea_rejects_unchanged (s : CoveyTownController)
    (c : ServerConversationArea)
    (h : c.topic = "" ∨ (s.conversationAreas.any fun a => a.label = c.label) = true ∨
         conversationOverlaps s (getConversationAreaCoordinates c.boundingBox) = true) :
    (addConversationArea s c).1 = false ∧ (addConversationArea s c).2.1 = s ∧
    (addConversationArea s c).2.2 = [] := by
  by_cases ht : c.topic = ""
  · simp [addConversationArea, ht]
  · by_cases hl : (s.conversationAreas.any fun a => a.label = c.label) = true
    · simp [addConversationArea, ht, hl]
    · rcases h with h | h | h
      · exact absurd h ht
      · exact absurd h hl
      · simp [addConversationArea, ht, hl, h]

/-- A participant standing at the origin, in no conversation area. -/
def demoPlayer : Player := ⟨"p1", ⟨0, 0, "front", false, none⟩, none⟩

/-- A fresh room with no participants, sessions, listeners or areas. -/
def emptyTown : CoveyTownController := mkCoveyTownController "t" true "TOWN0000" "pw"

/-- A candidate area with an empty topic. -/
def emptyTopicCandidate : ServerConversationArea := ⟨"M", "", [], ⟨100, 100, 2, 2⟩⟩

/-- Witness for C4: an empty-topic candidate is rejected and the room is
untouched. -/
theorem addConversationArea_rejects_unchanged_witness :
    (addConversationArea emptyTown emptyTopicCandidate).1 = false ∧
    (addConversationArea emptyTown emptyTopicCandidate).2.1 = emptyTown ∧
    (addConversationArea emptyTown emptyTopicCandidate).2.2 = [] :=
  addConversationArea_rejects_unchanged emptyTown emptyTopicCandidate (Or.inl rfl)

/-- C1 (evaluating the code at the failing input): `addPlayer` on an empty
room with a failing provisioning call leaves the participant and session
lists holding the new entries — NOT what they were before the call, because
the source pushes both before awaiting the provisioning result. -/
theorem addPlayer_failed_provisioning_mutates :
    (addPlayer emptyTown demoPlayer "tok" none).1.players = [demoPlayer] ∧
    (addPlayer emptyTown demoPlayer "tok" none).1.sessions =
      [{ player := demoPlayer, sessionToken := "tok", videoToken := none }] ∧
    emptyTown.players = [] ∧ emptyTown.sessions = [] :=
  ⟨rfl, rfl, rfl, rfl⟩

/-- Conversation area "A" whose sole occupant is `p1`. -/
def areaA : ServerConversationArea := ⟨"A", "chatting", ["p1"], ⟨0, 0, 10, 10⟩⟩

/-- The occupant of `areaA`. -/
def occupantP1 : Player := ⟨"p1", ⟨0, 0, "front", false, some "A"⟩, some "A"⟩

/-- The valid session of `occupantP1`. -/
def sessionP1 : PlayerSession := ⟨occupantP1, "tok1", some "vid1"⟩

/-- A room holding `occupantP1` inside `areaA`, with one listener. -/
def occupiedTown : CoveyTownController :=
  { mkCoveyTownController "t" true "TOWN0000" "pw" with
      players := [occupantP1]
      sessions := [sessionP1]
      listeners := [0]
      conversationAreas := [areaA] }

/-- C2 (evaluating the code at the failing input): destroying the session
of area "A"'s only occupant removes the id from the occupant list and fires
both the area-update and the area-destroyed notifications, but the emptied
area REMAINS in the conversation-area list: the source calls
`conversationAreas.slice(convoIndex, 1)`, which returns a copy and removes
nothing. -/
theorem destroySession_leaves_emptied_area :
    (destroySession occupiedTown sessionP1).1.conversationAreas =
      [{ areaA with occupantsByID := [] }] ∧
    (destroySession occupiedTown sessionP1).2 =
      [TownEvent.conversationAreaUpdated 0 "A",
       TownEvent.conversationAreaDestroyed 0 "A",
       TownEvent.playerDisconnected 0 "p1"] := by
  constructor <;> rfl

/-- A candidate area that already carries an occupant id ("ghost") when it
is passed to `addConversationArea`. -/
def ghostCandidate : ServerConversationArea := ⟨"L", "homework", ["ghost"], ⟨0, 0, 10, 10⟩⟩

/-- A room whose only participant stands strictly inside `ghostCandidate`'s
region. -/
def townWithInsider : CoveyTownController :=
  { mkCoveyTownController "t" true "TOWN0000" "pw" with players := [demoPlayer] }

/-- C3 (evaluating the code at the failing input): the accepted call keeps
the occupant id passed in on the candidate ("ghost") ahead of the scanned
insider ("p1"), although the method's doc comment says passed-in occupants
are ignored; the insider's active-area reference is set as claimed. -/
theorem addConversationArea_keeps_passed_occupants :
    (addConversationArea townWithInsider ghostCandidate).1 = true ∧
    ((addConversationArea townWithInsider ghostCandidate).2.1.conversationAreas.map
      fun a => a.occupantsByID) = [["ghost", "p1"]] ∧
    ((addConversationArea townWithInsider ghostCandidate).2.1.players.map
      fun p => p.activeConversationArea) = [some "L"] := by
  have hin : isPlayerInConversationArea
      ⟨"p1", ⟨0, 0, "front", false, none⟩, none⟩
      (getConversationAreaCoordinates ⟨0, 0, 10, 10⟩) = true := by
    norm_num [isPlayerInConversationArea, getConversationAreaCoordinates]
  refine ⟨rfl, ?_, ?_⟩ <;>
    simp [addConversationArea, townWithInsider, ghostCandidate, demoPlayer,
      mkCoveyTownController, conversationOverlaps, hin]

/-- The effect of the old-label pass of `updatePlayerLocation` on one area:
splice `indexOf(player.id)` out of the occupant list when the label matches
the player's current label, otherwise leave the area alone. -/
def oldAreaTransform (player : Player) (area : ServerConversationArea) :
    ServerConversationArea :=
  if some area.label = player.location.conversationLabel then
    { area with occupantsByID :=
        spliceRemoveOne area.occupantsByID (jsIndexOf area.occupantsByID player.id) }
  else area

/-- The effect of the new-label pass of `updatePlayerLocation` on one area:
push the player's id when the label matches the new location's label. -/
def newAreaTransform (player : Player) (location : UserLocation)
    (area : ServerConversationArea) : ServerConversationArea :=
  if some area.label = location.conversationLabel then
    { area with occupantsByID := area.occupantsByID ++ [player.id] }
  else area

theorem oldAreaTransform_label (player : Player) (area : ServerConversationArea) :
    (oldAreaTransform player area).label = area.label := by
  unfold oldAreaTransform
  split <;> rfl

theorem foldl_oldAreaStep_areas (s : CoveyTownController) (player : Player)
    (areas : List ServerConversationArea) (accA : List ServerConversationArea)
    (accE : List TownEvent) (accO : Option String) :
    (areas.foldl (oldAreaStep s player) (accA, accE, accO)).1 =
      accA ++ areas.map (oldAreaTransform player) := by
  induction areas generalizing accA accE accO with
  | nil => simp
  | cons a t ih =>
    simp only [List.foldl_cons, List.map_cons, oldAreaStep, oldAreaTransform]
    split
    · rw [ih]; simp
    · rw [ih]; simp

theorem foldl_destroyAreaStep_areas (s : CoveyTownController)
    (session : PlayerSession) (areas : List ServerConversationArea)
    (accA : List ServerConversationArea) (accE : List TownEvent) :
    (areas.foldl (destroyAreaStep s session) (accA, accE)).1 =
      accA ++ areas.map (oldAreaTransform session.player) := by
  induction areas generalizing accA accE with
  | nil => simp
  | cons a t ih =>
    simp only [List.foldl_cons, List.map_cons, destroyAreaStep, oldAreaTransform]
    split
    · rw [ih]; simp
    · rw [ih]; simp

theorem foldl_oldAreaStep_events (s : CoveyTownController) (player : Player)
    (areas : List ServerConversationArea) (accA : List ServerConversationArea)
    (accE : List TownEvent) (accO : Option String) :
    (areas.foldl (oldAreaStep s player) (accA, accE, accO)).2.1 =
      accE ++ (areas.filter fun a =>
          some a.label = player.location.conversationLabel).flatMap
        (fun a => s.listeners.map fun l => TownEvent.conversationAreaUpdated l a.label) := by
  induction areas generalizing accA accE accO with
  | nil => simp
  | cons a t ih =>
    simp only [List.foldl_cons, List.filter_cons]
    by_cases h : some a.label = player.location.conversationLabel
    · rw [oldAreaStep, if_pos h, ih]
      simp [h]
    · rw [oldAreaStep, if_neg h, ih]
      simp [h]

theorem foldl_newAreaStep_areas (s : CoveyTownController) (player : Player)
    (location : UserLocation) (areas : List ServerConversationArea)
    (accA : List ServerConversationArea) (accE : List TownEvent) (accO : Option String) :
    (areas.foldl (newAreaStep s player location) (accA, accE, accO)).1 =
      accA ++ areas.map (newAreaTransform player location) := by
  induction areas generalizing accA accE accO with
  | nil => simp
  | cons a t ih =>
    simp only [List.foldl_cons, List.map_cons, newAreaStep, newAreaTransform]
    split
    · rw [ih]; simp
    · rw [ih]; simp

theorem foldl_newAreaStep_events (s : CoveyTownController) (player : Player)
    (location : UserLocation) (areas : List ServerConversationArea)
    (accA : List ServerConversationArea) (accE : List TownEvent) (accO : Option String) :
    (areas.foldl (newAreaStep s player location) (accA, accE, accO)).2.1 =
      accE ++ (areas.filter fun a =>
          some a.label = location.conversationLabel).flatMap
        (fun a => s.listeners.map fun l => TownEvent.conversationAreaUpdated l a.label) := by
  induction areas generalizing accA accE accO with
  | nil => simp
  | cons a t ih =>
    simp only [List.foldl_cons, List.filter_cons]
    by_cases h : some a.label = location.conversationLabel
    · rw [newAreaStep, if_pos h, ih]
      simp [h]
    · rw [newAreaStep, if_neg h, ih]
      simp [h]

/-- Filtering by label and emitting label-only events is unaffected by a
label-preserving rewrite of the areas. -/
theorem filter_flatMap_label_map (areas : List ServerConversationArea)
    (f : ServerConversationArea → ServerConversationArea)
    (hf : ∀ a, (f a).label = a.label) (lbl : Option String) (ls : List Nat) :
    ((areas.map f).filter fun a => some a.label = lbl).flatMap
        (fun a => ls.map fun l => TownEvent.conversationAreaUpdated l a.label) =
      (areas.filter fun a => some a.label = lbl).flatMap
        (fun a => ls.map fun l => TownEvent.conversationAreaUpdated l a.label) := by
  induction areas with
  | nil => rfl
  | cons a t ih =>
    simp only [List.map_cons, List.filter_cons, hf]
    by_cases h : some a.label = lbl
    · simp [h, ih, hf]
    · simp [h, ih]

/-- C7: when the conversation label changes, `updatePlayerLocation` emits
the updates for areas matching the OLD label, then the updates for areas
matching the NEW label, then the participant-moved notifications; when the
label is unchanged, only the move notifications are emitted. -/
theorem updatePlayerLocation_event_order (s : CoveyTownController)
    (player : Player) (location : UserLocation) :
    (player.location.conversationLabel ≠ location.conversationLabel →
      (updatePlayerLocation s player location).2 =
        ((s.conversationAreas.filter fun a =>
            some a.label = player.location.conversationLabel).flatMap fun a =>
          s.listeners.map fun l => TownEvent.conversationAreaUpdated l a.label) ++
        ((s.conversationAreas.filter fun a =>
            some a.label = location.conversationLabel).flatMap fun a =>
          s.listeners.map fun l => TownEvent.conversationAreaUpdated l a.label) ++
        (s.listeners.map fun l => TownEvent.playerMoved l player.id)) ∧
    (player.location.conversationLabel = location.conversationLabel →
      (updatePlayerLocation s player location).2 =
        s.listeners.map fun l => TownEvent.playerMoved l player.id) := by
  constructor
  · intro h
    simp only [updatePlayerLocation, if_pos h]
    rw [foldl_newAreaStep_events, foldl_oldAreaStep_events, foldl_oldAreaStep_areas]
    simp only [List.nil_append]
    rw [filter_flatMap_label_map _ _ (oldAreaTransform_label player)]
  · intro h
    have hcond : ¬ (player.location.conversationLabel ≠ location.conversationLabel) :=
      fun hn => hn h
    simp only [updatePlayerLocation, if_neg hcond]
    simp

/-- A second conversation area "B", disjoint from `areaA`. -/
def areaB : ServerConversationArea := ⟨"B", "maths", [], ⟨20, 0, 10, 10⟩⟩

/-- A room holding areas "A" and "B", the participant `occupantP1` inside
"A", and one listener. -/
def twoAreaTown : CoveyTownController :=
  { mkCoveyTownController "t" true "TOWN0000" "pw" with
      players := [occupantP1]
      listeners := [0]
      conversationAreas := [areaA, areaB] }

/-- A location inside area "B", labelled "B". -/
def moveToB : UserLocation := ⟨20, 0, "front", false, some "B"⟩

/-- A location that keeps the label "A". -/
def stayInA : UserLocation := ⟨1, 1, "front", false, some "A"⟩

/-- Witness for C7: moving `p1` from area "A" to area "B" emits the "A"
update, then the "B" update, then the move; moving within "A" emits only
the move. -/
theorem updatePlayerLocation_event_order_witness :
    (updatePlayerLocation twoAreaTown occupantP1 moveToB).2 =
      ((twoAreaTown.conversationAreas.filter fun a =>
          some a.label = occupantP1.location.conversationLabel).flatMap fun a =>
        twoAreaTown.listeners.map fun l => TownEvent.conversationAreaUpdated l a.label) ++
      ((twoAreaTown.conversationAreas.filter fun a =>
          some a.label = moveToB.conversationLabel).flatMap fun a =>
        twoAreaTown.listeners.map fun l => TownEvent.conversationAreaUpdated l a.label) ++
      (twoAreaTown.listeners.map fun l => TownEvent.playerMoved l occupantP1.id) ∧
    (updatePlayerLocation twoAreaTown occupantP1 stayInA).2 =
      twoAreaTown.listeners.map fun l => TownEvent.playerMoved l occupantP1.id :=
  ⟨(updatePlayerLocation_event_order twoAreaTown occupantP1 moveToB).1 (by decide),
   (updatePlayerLocation_event_order twoAreaTown occupantP1 stayInA).2 rfl⟩

/-- C8: in every room, for every area (at any position `i` of the
conversation-area list) whose label matches the participant's recorded
conversation label but whose occupant list does not contain the
participant's id, both `destroySession` and the old-area step of
`updatePlayerLocation` splice at `indexOf = -1`, deleting the LAST entry of
that area's occupant list instead of leaving the occupant set untouched. -/
theorem missing_occupant_removes_last (s : CoveyTownController)
    (session : PlayerSession) (location : UserLocation)
    (i : Nat) (area : ServerConversationArea)
    (hi : s.conversationAreas[i]? = some area)
    (hmatch : some area.label = session.player.location.conversationLabel)
    (hnotin : session.player.id ∉ area.occupantsByID)
    (hne : area.occupantsByID ≠ [])
    (hchanged : session.player.location.conversationLabel ≠ location.conversationLabel) :
    (destroySession s session).1.conversationAreas[i]? =
      some { area with occupantsByID := area.occupantsByID.dropLast } ∧
    (updatePlayerLocation s session.player location).1.conversationAreas[i]? =
      some { area with occupantsByID := area.occupantsByID.dropLast } := by
  have hsplice : spliceRemoveOne area.occupantsByID
      (jsIndexOf area.occupantsByID session.player.id) =
      area.occupantsByID.dropLast := by
    rw [jsIndexOf_of_not_mem _ _ hnotin, spliceRemoveOne_neg_one _ hne]
  have hold : oldAreaTransform session.player area =
      { area with occupantsByID := area.occupantsByID.dropLast } := by
    simp only [oldAreaTransform]
    rw [if_pos hmatch, hsplice]
  constructor
  · simp only [destroySession]
    rw [foldl_destroyAreaStep_areas]
    simp only [List.nil_append, List.getElem?_map, hi, Option.map_some', hold]
  · have hnew : ¬ (some area.label = location.conversationLabel) := by
      rw [hmatch]; exact hchanged
    have hnewT : newAreaTransform session.player location
        { area with occupantsByID := area.occupantsByID.dropLast } =
        { area with occupantsByID := area.occupantsByID.dropLast } := by
      simp only [newAreaTransform]
      rw [if_neg hnew]
    simp only [updatePlayerLocation, if_pos hchanged]
    rw [foldl_newAreaStep_areas, foldl_oldAreaStep_areas]
    simp only [List.nil_append, List.map_map, List.getElem?_map, hi, Option.map_some',
      Function.comp_apply, hold, hnewT]

/-- A participant whose recorded label is "A" although area "A" does not
list it as an occupant. -/
def strayPlayer : Player := ⟨"p9", ⟨0, 0, "front", false, some "A"⟩, some "A"⟩

/-- The valid session of `strayPlayer`. -/
def straySession : PlayerSession := ⟨strayPlayer, "tok9", some "vid9"⟩

/-- Area "A" occupied by `x` and `y` but not by `strayPlayer`. -/
def areaXY : ServerConversationArea := ⟨"A", "chatting", ["x", "y"], ⟨0, 0, 10, 10⟩⟩

/-- A two-area room where `strayPlayer`'s label points at `areaXY` (the
first area), which does not contain its id. -/
def strayTown : CoveyTownController :=
  { mkCoveyTownController "t" true "TOWN0000" "pw" with
      players := [strayPlayer]
      sessions := [straySession]
      conversationAreas := [areaXY, areaB] }

/-- A location with no conversation label. -/
def leaveLocation : UserLocation := ⟨0, 20, "front", false, none⟩

/-- Witness for C8: in the two-area room, destroying `strayPlayer`'s
session (or moving it out of "A") deletes `"y"` — the last entry of area
"A"'s occupant list — even though `"p9"` was never an occupant. -/
theorem missing_occupant_removes_last_witness :
    (destroySession strayTown straySession).1.conversationAreas[0]? =
      some { areaXY with occupantsByID := ["x"] } ∧
    (updatePlayerLocation strayTown strayPlayer leaveLocation).1.conversationAreas[0]? =
      some { areaXY with occupantsByID := ["x"] } :=
  missing_occupant_removes_last strayTown straySession leaveLocation 0 areaXY
    rfl rfl (by decide) (by decide) (by decide)
